import Mathlib

/-!
Verification of the sparkplug-cpp core against its specification.

The development shallowly embeds the library's topic codec (src/topic.cpp),
payload model (src/payload_builder.cpp), edge-node session engine
(src/edge_node.cpp) and host-application validator
(src/host_application.cpp) as executable Lean definitions, and proves the
spec's claims about them.  Strings are modelled as lists of characters;
the MQTT transport is abstracted by boolean parameters recording whether
each transport call succeeds; protobuf serialisation is treated as the
identity on the structured payload (encoding is out of scope for the
library core).
-/

set_option maxRecDepth 4000

/-- Strings of the modelled program: lists of characters. -/
abbrev Str := List Char

/-- The Sparkplug B namespace constant from topic.hpp. -/
def NAMESPACE : Str := ("spBv1.0").data

/-- The topic delimiter. -/
def slash : Char := '/'

/-- Message types, from topic.hpp. -/
inductive MessageType where
  | NBIRTH | NDEATH | DBIRTH | DDEATH | NDATA | DDATA | NCMD | DCMD | STATE
deriving DecidableEq

/-- A Sparkplug topic, from topic.hpp. -/
structure Topic where
  group_id : Str
  message_type : MessageType
  edge_node_id : Str
  device_id : Str
deriving DecidableEq

/-- message_type_to_string from src/topic.cpp. -/
def message_type_to_string : MessageType → Str
  | .NBIRTH => ("NBIRTH").data
  | .NDEATH => ("NDEATH").data
  | .DBIRTH => ("DBIRTH").data
  | .DDEATH => ("DDEATH").data
  | .NDATA => ("NDATA").data
  | .DDATA => ("DDATA").data
  | .NCMD => ("NCMD").data
  | .DCMD => ("DCMD").data
  | .STATE => ("STATE").data

/-- parse_message_type from src/topic.cpp. -/
def parse_message_type (s : Str) : Except Str MessageType :=
  if s = ("NBIRTH").data then .ok .NBIRTH
  else if s = ("NDEATH").data then .ok .NDEATH
  else if s = ("DBIRTH").data then .ok .DBIRTH
  else if s = ("DDEATH").data then .ok .DDEATH
  else if s = ("NDATA").data then .ok .NDATA
  else if s = ("DDATA").data then .ok .DDATA
  else if s = ("NCMD").data then .ok .NCMD
  else if s = ("DCMD").data then .ok .DCMD
  else if s = ("STATE").data then .ok .STATE
  else .error (("Unknown message type: ").data ++ s)

/-- split_string_view from src/topic.cpp: split on a delimiter; interior
empty segments are kept, a trailing delimiter produces no final empty
segment, and the empty string yields no segments. -/
def split_string_view (d : Char) : Str → List Str
  | [] => []
  | c :: cs =>
    if c = d then [] :: split_string_view d cs
    else
      match split_string_view d cs with
      | [] => [[c]]
      | p :: ps => (c :: p) :: ps

/-- Topic::to_string from src/topic.cpp. -/
def Topic.to_string (t : Topic) : Str :=
  if t.message_type = MessageType.STATE then
    NAMESPACE ++ slash :: ("STATE").data ++ slash :: t.edge_node_id
  else if t.device_id = [] then
    NAMESPACE ++ slash :: t.group_id ++ slash ::
      message_type_to_string t.message_type ++ slash :: t.edge_node_id
  else
    NAMESPACE ++ slash :: t.group_id ++ slash ::
      message_type_to_string t.message_type ++ slash :: t.edge_node_id ++
      slash :: t.device_id

/-- Topic::parse from src/topic.cpp. -/
def Topic.parse (topic_str : Str) : Except Str Topic :=
  let parts := split_string_view slash topic_str
  if parts.length < 2 then .error (("Invalid topic format").data)
  else
    let part0 := parts.getD 0 []
    let part1 := parts.getD 1 []
    if part0 ≠ NAMESPACE then .error (("Invalid Sparkplug B topic").data)
    else if part1 = ("STATE").data then
      if parts.length < 3 then .error (("STATE topic requires host id").data)
      else
        .ok { group_id := [], message_type := .STATE,
              edge_node_id := parts.getD 2 [], device_id := [] }
    else if parts.length < 4 then .error (("Invalid Sparkplug B topic").data)
    else
      match parse_message_type (parts.getD 2 []) with
      | .error e => .error e
      | .ok mt =>
        .ok { group_id := part1, message_type := mt,
              edge_node_id := parts.getD 3 [],
              device_id := if parts.length > 4 then parts.getD 4 [] else [] }

/-- Node-level message kinds carry an empty device id in a topic. -/
def MessageType.isNodeLevel : MessageType → Bool
  | .NBIRTH | .NDEATH | .NDATA | .NCMD | .STATE => true
  | .DBIRTH | .DDEATH | .DDATA | .DCMD => false

/-- Validity of a topic exactly as claim C3 words it: the three id fields
contain no slash, the device id is empty for node-level message types, and
a STATE topic has empty group and device ids. -/
def ClaimValidTopic (t : Topic) : Prop :=
  slash ∉ t.group_id ∧ slash ∉ t.edge_node_id ∧ slash ∉ t.device_id ∧
  (t.message_type.isNodeLevel = true → t.device_id = []) ∧
  (t.message_type = .STATE → t.group_id = [] ∧ t.device_id = [])

instance (t : Topic) : Decidable (ClaimValidTopic t) := by
  unfold ClaimValidTopic; infer_instance

/-! ## Payload model (sparkplug_b protobuf + PayloadBuilder) -/

/-- Sparkplug numeric datatype code for UInt64, from topic.hpp. -/
def DataTypeUInt64 : Nat := 8

/-- 2 to the 64: the modulus of the C++ uint64_t counters. -/
def u64 : Nat := 2 ^ 64

/-- A protobuf Metric, restricted to the fields the library core reads and
writes.  Optional fields are Option; the proto getter of long_value
defaults to 0, modelled by Metric.longValue being plain Nat. -/
structure Metric where
  name : Option Str := none
  aliasNum : Option Nat := none
  datatype : Option Nat := none
  longValue : Nat := 0
  timestamp : Option Nat := none
deriving DecidableEq

/-- The proto name() getter: empty string when unset. -/
def Metric.nameStr (m : Metric) : Str := m.name.getD []

/-- A protobuf Payload, restricted to the fields the library core touches. -/
structure Payload where
  timestamp : Option Nat := none
  seq : Option Nat := none
  metrics : List Metric := []
deriving DecidableEq

/-- PayloadBuilder::set_seq. -/
def Payload.set_seq (p : Payload) (n : Nat) : Payload := { p with seq := some n }

/-- PayloadBuilder::has_seq. -/
def Payload.has_seq (p : Payload) : Bool := p.seq.isSome

/-- The metric written by add_metric of a uint64 value (used for bdSeq):
name, UInt64 datatype, long_value, and the current time as timestamp. -/
def bdSeqMetric (v now : Nat) : Metric :=
  { name := some (("bdSeq").data), datatype := some DataTypeUInt64,
    longValue := v, timestamp := some now }

/-- Whether a payload already carries a metric named bdSeq (the loop in
EdgeNode::publish_birth). -/
def Payload.hasBdSeqMetric (p : Payload) : Bool :=
  p.metrics.any (fun m => m.nameStr = ("bdSeq").data)

/-! ## Association-list maps (std::unordered_map with the access patterns
the library uses: find, operator-bracket insert-or-assign) -/

/-- Lookup in an association list (std::unordered_map::find). -/
def alookup {κ α : Type} [DecidableEq κ] : List (κ × α) → κ → Option α
  | [], _ => none
  | (k, v) :: rest, key => if k = key then some v else alookup rest key

/-- Insert-or-assign in an association list (map[key] = value). -/
def ainsert {κ α : Type} [DecidableEq κ] : List (κ × α) → κ → α → List (κ × α)
  | [], key, value => [(key, value)]
  | (k, v) :: rest, key, value =>
    if k = key then (key, value) :: rest else (k, v) :: ainsert rest key value

/-! ## EdgeNode state and operations (src/edge_node.cpp)

Transport interactions are abstracted by Bool parameters: `true` means the
corresponding MQTT call succeeded.  A publish that is never attempted, or
whose send fails, puts nothing on the wire. -/

/-- The configuration fields of EdgeNode::Config that the session logic
reads (broker/client identifiers and TLS are transport-side). -/
structure EdgeConfig where
  group_id : Str
  edge_node_id : Str
  data_qos : Nat := 0
  death_qos : Nat := 1
  primary_host_id : Option Str := none
deriving DecidableEq

/-- Per-device state, from edge_node.hpp DeviceState. -/
structure DeviceState where
  last_birth_payload : Option Payload := none
  is_online : Bool := false
deriving DecidableEq

/-- The mutable state of an EdgeNode, from edge_node.hpp.  Payload byte
vectors are modelled by the structured Payload they encode; an empty
vector is None. -/
structure EdgeNode where
  config : EdgeConfig
  seq_num : Nat := 0
  bd_seq_num : Nat := 0
  death_payload_data : Option Payload := none
  last_birth_payload : Option Payload := none
  device_states : List (Str × DeviceState) := []
  is_connected : Bool := false
  primary_host_online : Bool := false
deriving DecidableEq

/-- EdgeNode::get_seq. -/
def EdgeNode.get_seq (n : EdgeNode) : Nat := n.seq_num

/-- EdgeNode::get_bd_seq. -/
def EdgeNode.get_bd_seq (n : EdgeNode) : Nat := n.bd_seq_num

/-- A message handed to MQTTAsync_sendMessage. -/
structure Published where
  topic : Topic
  payload : Payload
  qos : Nat
  retain : Bool
deriving DecidableEq

/-- Outcome of one EdgeNode operation: the error (None on success), the
state after the call, and the messages put on the wire by the call. -/
structure OpResult where
  err : Option Str
  state : EdgeNode
  wire : List Published
deriving DecidableEq

/-- The node-level topic of a given kind for this node's config. -/
def nodeTopic (c : EdgeConfig) (mt : MessageType) : Topic :=
  { group_id := c.group_id, message_type := mt,
    edge_node_id := c.edge_node_id, device_id := [] }

/-- The device-level topic of a given kind. -/
def deviceTopic (c : EdgeConfig) (mt : MessageType) (dev : Str) : Topic :=
  { group_id := c.group_id, message_type := mt,
    edge_node_id := c.edge_node_id, device_id := dev }

/-- EdgeNode::connect, restricted to its state effects: increment bdSeq
(uint64), rebuild the NDEATH will payload with it, and on transport
success mark connected, setting primary_host_online when no primary host
is configured.  `connOk` abstracts the success of the MQTT connect and
the subscribe calls; `now` is the wall clock read by the payload
builder. -/
def EdgeNode.connect (n : EdgeNode) (connOk : Bool) (now : Nat) :
    Option Str × EdgeNode :=
  let bd := (n.bd_seq_num + 1) % u64
  let n1 := { n with bd_seq_num := bd,
                     death_payload_data :=
                       some { timestamp := some now, metrics := [bdSeqMetric bd now] } }
  if !connOk then (some (("Failed to connect").data), n1)
  else
    let n2 := { n1 with is_connected := true }
    (none, if n.config.primary_host_id.isNone then
             { n2 with primary_host_online := true }
           else n2)

/-- EdgeNode::disconnect, restricted to its state effect: on success the
connected flag is cleared; on transport failure the state is unchanged. -/
def EdgeNode.disconnect (n : EdgeNode) (discOk : Bool) : Option Str × EdgeNode :=
  if !discOk then (some (("Failed to disconnect").data), n)
  else (none, { n with is_connected := false })

/-- EdgeNode::on_connection_lost: clears only the connected flag. -/
def EdgeNode.on_connection_lost (n : EdgeNode) : EdgeNode :=
  { n with is_connected := false }

/-- Whether the first list is a prefix of the second (Boolean). -/
def strStarts : Str → Str → Bool
  | [], _ => true
  | _ :: _, [] => false
  | a :: as, b :: bs => a = b && strStarts as bs

/-- std::string::find(needle) != npos: the needle occurs somewhere in the
haystack. -/
def strContains (needle : Str) : Str → Bool
  | [] => strStarts needle []
  | c :: cs => strStarts needle (c :: cs) || strContains needle cs

/-- The STATE branch of EdgeNode::on_message_arrived: a payload containing
the online-true JSON fragment marks the primary host online, one
containing the online-false fragment marks it offline, anything else
leaves the flag alone. -/
def EdgeNode.on_state_message (n : EdgeNode) (payload : Str) : EdgeNode :=
  if strContains (("\"online\":true").data) payload then
    { n with primary_host_online := true }
  else if strContains (("\"online\":false").data) payload then
    { n with primary_host_online := false }
  else n

/-- EdgeNode::publish_birth.  Requires connected and primary host online;
forces seq to 0; injects a bdSeq metric carrying the current bd_seq when
the caller's payload has none (with the payload's timestamp when it has
one); publishes NBIRTH at data_qos, retain false; on send success caches
the built payload and resets the node seq counter to 0. -/
def EdgeNode.publish_birth (n : EdgeNode) (pubOk : Bool) (p : Payload) : OpResult :=
  if !n.is_connected then ⟨some (("Not connected").data), n, []⟩
  else if !n.primary_host_online then
    ⟨some (("Primary host is not online").data), n, []⟩
  else
    let p1 := p.set_seq 0
    let p2 :=
      if p1.hasBdSeqMetric then p1
      else { p1 with metrics := p1.metrics ++
               [{ name := some (("bdSeq").data), datatype := some DataTypeUInt64,
                  longValue := n.bd_seq_num, timestamp := p1.timestamp }] }
    if !pubOk then ⟨some (("Failed to publish").data), n, []⟩
    else ⟨none,
          { n with last_birth_payload := some p2, seq_num := 0 },
          [⟨nodeTopic n.config .NBIRTH, p2, n.config.data_qos, false⟩]⟩

/-- EdgeNode::publish_data.  Requires connected; advances the shared seq
counter before the send; fills the payload seq only when the caller has
not set one; publishes NDATA at data_qos.  The counter advance persists
even when the send fails. -/
def EdgeNode.publish_data (n : EdgeNode) (pubOk : Bool) (p : Payload) : OpResult :=
  if !n.is_connected then ⟨some (("Not connected").data), n, []⟩
  else
    let n1 := { n with seq_num := (n.seq_num + 1) % 256 }
    let p1 := if p.has_seq then p else p.set_seq n1.seq_num
    if !pubOk then ⟨some (("Failed to publish").data), n1, []⟩
    else ⟨none, n1, [⟨nodeTopic n.config .NDATA, p1, n.config.data_qos, false⟩]⟩

/-- EdgeNode::publish_death.  Requires connected; advances the shared seq
counter; builds an NDEATH payload carrying the current bdSeq, the new seq
and the current time; publishes it at death_qos; then disconnects. -/
def EdgeNode.publish_death (n : EdgeNode) (pubOk discOk : Bool) (now : Nat) :
    OpResult :=
  if !n.is_connected then ⟨some (("Not connected").data), n, []⟩
  else
    let n1 := { n with seq_num := (n.seq_num + 1) % 256 }
    let dp : Payload := { timestamp := some now, seq := some n1.seq_num,
                          metrics := [bdSeqMetric n.bd_seq_num now] }
    let msg : Published := ⟨nodeTopic n.config .NDEATH, dp, n.config.death_qos, false⟩
    if !pubOk then ⟨some (("Failed to publish").data), n1, []⟩
    else
      match n1.disconnect discOk with
      | (some e, n2) => ⟨some e, n2, [msg]⟩
      | (none, n2) => ⟨none, n2, [msg]⟩

/-- Rewrite of the first metric named bdSeq in EdgeNode::rebirth: its
long_value becomes the new bdSeq. -/
def updateFirstBdSeq (v : Nat) : List Metric → List Metric
  | [] => []
  | m :: ms =>
    if m.nameStr = ("bdSeq").data then { m with longValue := v } :: ms
    else m :: updateFirstBdSeq v ms

/-- EdgeNode::rebirth.  Requires connected and a cached NBIRTH payload;
rewrites the cached payload's bdSeq metric to bd_seq + 1 and its seq to 0,
stores it back, refreshes the NDEATH will payload, then disconnects,
reconnects (connect itself increments bd_seq to the same value) and
republishes the rewritten NBIRTH at data_qos; on success resets the seq
counter to 0. -/
def EdgeNode.rebirth (n : EdgeNode) (discOk connOk pubOk : Bool) (now now2 : Nat) :
    OpResult :=
  if !n.is_connected then ⟨some (("Not connected").data), n, []⟩
  else
    match n.last_birth_payload with
    | none => ⟨some (("No previous birth payload stored").data), n, []⟩
    | some p =>
      let newBd := (n.bd_seq_num + 1) % u64
      let p1 : Payload := { p with metrics := updateFirstBdSeq newBd p.metrics,
                                   seq := some 0 }
      let n1 := { n with last_birth_payload := some p1,
                         death_payload_data :=
                           some { timestamp := some now,
                                  metrics := [bdSeqMetric newBd now] } }
      match n1.disconnect discOk with
      | (some e, n2) => ⟨some e, n2, []⟩
      | (none, n2) =>
        match n2.connect connOk now2 with
        | (some e, n3) => ⟨some e, n3, []⟩
        | (none, n3) =>
          if !pubOk then ⟨some (("Failed to publish").data), n3, []⟩
          else ⟨none, { n3 with seq_num := 0 },
                [⟨nodeTopic n.config .NBIRTH, p1, n.config.data_qos, false⟩]⟩

/-- EdgeNode::publish_device_birth.  Requires connected, primary host
online and a prior NBIRTH; advances the shared seq counter and writes it
into the payload unconditionally; subscribes to the device's DCMD topic,
then publishes DBIRTH at data_qos; on success records the device as
online with its birth payload. -/
def EdgeNode.publish_device_birth (n : EdgeNode) (subOk pubOk : Bool)
    (dev : Str) (p : Payload) : OpResult :=
  if !n.is_connected then ⟨some (("Not connected").data), n, []⟩
  else if !n.primary_host_online then
    ⟨some (("Primary host is not online").data), n, []⟩
  else if n.last_birth_payload.isNone then
    ⟨some (("Must publish NBIRTH before DBIRTH").data), n, []⟩
  else
    let n1 := { n with seq_num := (n.seq_num + 1) % 256 }
    let p1 := p.set_seq n1.seq_num
    if !subOk then ⟨some (("Failed to subscribe to DCMD").data), n1, []⟩
    else if !pubOk then ⟨some (("Failed to publish").data), n1, []⟩
    else ⟨none,
          { n1 with device_states :=
              ainsert n1.device_states dev ⟨some p1, true⟩ },
          [⟨deviceTopic n.config .DBIRTH dev, p1, n.config.data_qos, false⟩]⟩

/-- EdgeNode::publish_device_data.  Requires connected and the device to
be known and online (a DBIRTH in the current session not undone by a
DDEATH); advances the shared seq counter; fills the payload seq only when
the caller has not set one; publishes DDATA at data_qos. -/
def EdgeNode.publish_device_data (n : EdgeNode) (pubOk : Bool)
    (dev : Str) (p : Payload) : OpResult :=
  if !n.is_connected then ⟨some (("Not connected").data), n, []⟩
  else
    match alookup n.device_states dev with
    | none => ⟨some (("Must publish DBIRTH for device before DDATA").data), n, []⟩
    | some ds =>
      if !ds.is_online then
        ⟨some (("Must publish DBIRTH for device before DDATA").data), n, []⟩
      else
        let n1 := { n with seq_num := (n.seq_num + 1) % 256 }
        let p1 := if p.has_seq then p else p.set_seq n1.seq_num
        if !pubOk then ⟨some (("Failed to publish").data), n1, []⟩
        else ⟨none, n1,
              [⟨deviceTopic n.config .DDATA dev, p1, n.config.data_qos, false⟩]⟩

/-- Marking a device offline after a DDEATH (the find-and-assign at the
end of EdgeNode::publish_device_death). -/
def setDeviceOffline (dev : Str) : List (Str × DeviceState) → List (Str × DeviceState)
  | [] => []
  | (k, v) :: rest =>
    if k = dev then (k, { v with is_online := false }) :: rest
    else (k, v) :: setDeviceOffline dev rest

/-- EdgeNode::publish_device_death.  Requires connected and the device to
be known (online or not); advances the shared seq counter; builds a DDEATH
payload carrying the new seq and the current time; publishes it at
data_qos (the source passes config_.data_qos here); on success marks the
device offline. -/
def EdgeNode.publish_device_death (n : EdgeNode) (pubOk : Bool)
    (dev : Str) (now : Nat) : OpResult :=
  if !n.is_connected then ⟨some (("Not connected").data), n, []⟩
  else
    match alookup n.device_states dev with
    | none => ⟨some (("Unknown device").data), n, []⟩
    | some _ =>
      let n1 := { n with seq_num := (n.seq_num + 1) % 256 }
      let dp : Payload := { timestamp := some now, seq := some n1.seq_num,
                            metrics := [] }
      if !pubOk then ⟨some (("Failed to publish").data), n1, []⟩
      else ⟨none,
            { n1 with device_states := setDeviceOffline dev n1.device_states },
            [⟨deviceTopic n.config .DDEATH dev, dp, n.config.data_qos, false⟩]⟩

/-! ## Traces of EdgeNode operations -/

/-- One public EdgeNode call, with the wall-clock values the C++ reads. -/
inductive EdgeOp where
  | opConnect (now : Nat)
  | opBirth (p : Payload)
  | opData (p : Payload)
  | opDevBirth (dev : Str) (p : Payload)
  | opDevData (dev : Str) (p : Payload)
  | opDevDeath (dev : Str) (now : Nat)
  | opDeath (now : Nat)
  | opRebirth (now now2 : Nat)
deriving DecidableEq

/-- Run one operation with every transport call succeeding (operations can
still fail on the library's own guard checks). -/
def runEdgeOp (op : EdgeOp) (n : EdgeNode) : OpResult :=
  match op with
  | .opConnect now => let (e, n1) := n.connect true now; ⟨e, n1, []⟩
  | .opBirth p => n.publish_birth true p
  | .opData p => n.publish_data true p
  | .opDevBirth dev p => n.publish_device_birth true true dev p
  | .opDevData dev p => n.publish_device_data true dev p
  | .opDevDeath dev now => n.publish_device_death true dev now
  | .opDeath now => n.publish_death true true now
  | .opRebirth now now2 => n.rebirth true true true now now2

/-- Run a list of operations, collecting everything put on the wire. -/
def runEdgeOps : List EdgeOp → EdgeNode → EdgeNode × List Published
  | [], n => (n, [])
  | op :: ops, n =>
    ((runEdgeOps ops (runEdgeOp op n).state).1,
     (runEdgeOp op n).wire ++ (runEdgeOps ops (runEdgeOp op n).state).2)

/-- Whether every operation of a trace succeeded (with the transport
always succeeding). -/
def runAllOk : List EdgeOp → EdgeNode → Bool
  | [], _ => true
  | op :: ops, n => (runEdgeOp op n).err.isNone && runAllOk ops (runEdgeOp op n).state

/-- An operation leaves seq management to the core: data payloads carry no
caller-preset seq.  Other operations always overwrite or build the seq
themselves. -/
def EdgeOp.seqFresh : EdgeOp → Bool
  | .opData p => !p.has_seq
  | .opDevData _ p => !p.has_seq
  | _ => true

/-- The wire discipline claimed by P1: starting from counter value prev,
each NBIRTH carries seq 0 and resets the counter, every other message
carries the next counter value mod 256. -/
def seqSeriesFrom (prev : Nat) : List Published → Bool
  | [] => true
  | m :: rest =>
    if m.topic.message_type = .NBIRTH then
      m.payload.seq = some 0 && seqSeriesFrom 0 rest
    else
      m.payload.seq = some ((prev + 1) % 256) && seqSeriesFrom ((prev + 1) % 256) rest

/-- The counter value after a run of wire messages under the P1 series
discipline. -/
def seriesEnd (prev : Nat) : List Published → Nat
  | [] => prev
  | m :: rest =>
    seriesEnd (if m.topic.message_type = .NBIRTH then 0 else (prev + 1) % 256) rest

/-! ## HostApplication validator (src/host_application.cpp) -/

/-- Per-device consumer state, from host_application.hpp DeviceDataState. -/
structure DeviceDataState where
  is_online : Bool := false
  last_seq : Nat := 255
  birth_received : Bool := false
  alias_map : List (Nat × Str) := []
  offline_timestamp : Nat := 0
  metrics_stale : Bool := false
deriving DecidableEq

/-- Per-node consumer state, from host_application.hpp NodeState. -/
structure NodeState where
  is_online : Bool := false
  last_seq : Nat := 255
  bd_seq : Nat := 0
  birth_timestamp : Nat := 0
  birth_received : Bool := false
  alias_map : List (Nat × Str) := []
  devices : List (Str × DeviceDataState) := []
deriving DecidableEq

/-- Log events emitted by HostApplication::validate_message; the formatted
diagnostic text is abstracted to the event identity plus the numbers the
gap warnings carry. -/
inductive HostLog where
  | warnNbirthSeq (got : Nat)
  | warnNbirthNoBdSeq
  | warnNdeathBdSeqMismatch (got expect : Nat)
  | warnNdataBeforeBirth
  | warnSeqGap (got expect : Nat)
  | warnDbirthBeforeBirth
  | warnDbirthGap (got expect : Nat)
  | warnDdataBeforeNbirth
  | warnDdataBeforeDbirth
  | warnDdataGap (got expect : Nat)
  | debugDeviceOffline
  | warnDdeathUnknownDevice
deriving DecidableEq

/-- First metric named bdSeq in a payload, and its long_value (the search
loops in validate_message). -/
def firstBdSeq : List Metric → Option Nat
  | [] => none
  | m :: ms => if m.nameStr = ("bdSeq").data then some m.longValue else firstBdSeq ms

/-- The alias map built at a birth: every metric carrying both a name and
an alias contributes, in payload order, later entries overwriting. -/
def buildAliasMap (ms : List Metric) : List (Nat × Str) :=
  ms.foldl
    (fun acc m =>
      if m.aliasNum.isSome && m.name.isSome then
        ainsert acc (m.aliasNum.getD 0) (m.name.getD [])
      else acc)
    []

/-- Outcome of HostApplication::validate_message on the node-state table:
whether the message passed, the updated table, and the log events. -/
structure HostResult where
  ok : Bool
  states : List ((Str × Str) × NodeState)
  logs : List HostLog
deriving DecidableEq

/-- HostApplication::validate_message.  The node entry is default-created
on first contact (unordered_map operator-bracket) whatever the message
kind, matching the C++. -/
def validate_message (validate_sequence : Bool) (topic : Topic) (payload : Payload)
    (states : List ((Str × Str) × NodeState)) : HostResult :=
  if !validate_sequence then ⟨true, states, []⟩
  else
    let key := (topic.group_id, topic.edge_node_id)
    let st := (alookup states key).getD {}
    match topic.message_type with
    | .NBIRTH =>
      if payload.has_seq && payload.seq.getD 0 ≠ 0 then
        ⟨false, ainsert states key st, [.warnNbirthSeq (payload.seq.getD 0)]⟩
      else
        match firstBdSeq payload.metrics with
        | none => ⟨false, ainsert states key st, [.warnNbirthNoBdSeq]⟩
        | some bd =>
          ⟨true,
           ainsert states key
             { st with bd_seq := bd, last_seq := 0, is_online := true,
                       birth_received := true,
                       birth_timestamp := payload.timestamp.getD 0,
                       alias_map := buildAliasMap payload.metrics },
           []⟩
    | .NDEATH =>
      let bd := (firstBdSeq payload.metrics).getD 0
      ⟨true, ainsert states key { st with is_online := false },
       if st.birth_received && bd ≠ st.bd_seq then
         [.warnNdeathBdSeqMismatch bd st.bd_seq]
       else []⟩
    | .NDATA =>
      if !st.birth_received then
        ⟨false, ainsert states key st, [.warnNdataBeforeBirth]⟩
      else
        match payload.seq with
        | none => ⟨true, ainsert states key st, []⟩
        | some sq =>
          let expected := (st.last_seq + 1) % 256
          ⟨true, ainsert states key { st with last_seq := sq },
           if sq ≠ expected then [.warnSeqGap sq expected] else []⟩
    | .DBIRTH =>
      if !st.birth_received then
        ⟨false, ainsert states key st, [.warnDbirthBeforeBirth]⟩
      else
        let (st1, ws) :=
          match payload.seq with
          | none => (st, ([] : List HostLog))
          | some sq =>
            let expected := (st.last_seq + 1) % 256
            ({ st with last_seq := sq },
             if sq ≠ expected then [.warnDbirthGap sq expected] else [])
        let dst := (alookup st1.devices topic.device_id).getD {}
        let dst1 : DeviceDataState :=
          { dst with is_online := true, birth_received := true,
                     metrics_stale := false, offline_timestamp := 0,
                     alias_map := buildAliasMap payload.metrics }
        let st2 : NodeState :=
          { st1 with devices := ainsert st1.devices topic.device_id dst1 }
        ⟨true, ainsert states key st2, ws⟩
    | .DDATA =>
      if !st.birth_received then
        ⟨false, ainsert states key st, [.warnDdataBeforeNbirth]⟩
      else
        match alookup st.devices topic.device_id with
        | none => ⟨false, ainsert states key st, [.warnDdataBeforeDbirth]⟩
        | some dst =>
          if !dst.birth_received then
            ⟨false, ainsert states key st, [.warnDdataBeforeDbirth]⟩
          else
            match payload.seq with
            | none => ⟨true, ainsert states key st, []⟩
            | some sq =>
              let expected := (st.last_seq + 1) % 256
              ⟨true, ainsert states key { st with last_seq := sq },
               if sq ≠ expected then [.warnDdataGap sq expected] else []⟩
    | .DDEATH =>
      match alookup st.devices topic.device_id with
      | none => ⟨true, ainsert states key st, [.warnDdeathUnknownDevice]⟩
      | some dst =>
        let dst1 : DeviceDataState :=
          { dst with is_online := false,
                     offline_timestamp :=
                       match payload.timestamp with
                       | some ts => ts
                       | none => dst.offline_timestamp,
                     metrics_stale := true }
        let st1 : NodeState :=
          { st with devices := ainsert st.devices topic.device_id dst1 }
        ⟨true, ainsert states key st1, [.debugDeviceOffline]⟩
    | .NCMD => ⟨true, ainsert states key st, []⟩
    | .DCMD => ⟨true, ainsert states key st, []⟩
    | .STATE => ⟨true, ainsert states key st, []⟩


/-! ## Concrete fixtures used by witnesses and counterexamples -/

/-- A minimal edge node configuration (no primary host). -/
def cfg0 : EdgeConfig := { group_id := ("G").data, edge_node_id := ("N").data }

/-- A freshly constructed EdgeNode with that configuration. -/
def n0 : EdgeNode := { config := cfg0 }

/-- Connect, publish NBIRTH, then 256 NDATA publishes. -/
def ops256 : List EdgeOp :=
  [.opConnect 0, .opBirth {}] ++ List.replicate 256 (.opData {})

/-- Connect, publish NBIRTH, then an NDATA whose payload carries a
caller-preset seq of 7. -/
def opsPreset : List EdgeOp :=
  [.opConnect 0, .opBirth {}, .opData { seq := some 7 }]


/-- Boolean predicate of claim C2: the payload carries a metric named
bdSeq with UInt64 datatype and the given value. -/
def carriesBdSeqOf (pl : Payload) (v : Nat) : Bool :=
  pl.metrics.any (fun m =>
    m.nameStr = ("bdSeq").data && m.datatype = some DataTypeUInt64 &&
    m.longValue = v)

/-- A connected node with no primary host configured. -/
def nC : EdgeNode :=
  { config := cfg0, is_connected := true, primary_host_online := true }

/-- A connected node with bd_seq 1, for the C2 fixtures. -/
def nBd1 : EdgeNode :=
  { config := cfg0, is_connected := true, primary_host_online := true,
    bd_seq_num := 1 }

/-- A caller NBIRTH payload carrying its own bdSeq metric with value 99. -/
def pOddBd : Payload :=
  { metrics := [{ name := some (("bdSeq").data),
                  datatype := some DataTypeUInt64, longValue := 99 }] }

/-- A connected node configured with a primary host that has not been
observed online. -/
def nPH : EdgeNode :=
  { config := { cfg0 with primary_host_id := some (("SCADA01").data) },
    is_connected := true }

/-- A STATE JSON body declaring the host online. -/
def stateOnlineJson : Str := ("\x7b\"online\":true,\"timestamp\":123\x7d").data

/-- The device id used in fixtures. -/
def devD : Str := ("D").data

/-- A connected node with an NBIRTH cached and device D online. -/
def nDev : EdgeNode :=
  { config := cfg0, is_connected := true, primary_host_online := true,
    bd_seq_num := 1, last_birth_payload := some {},
    device_states := [(devD, { last_birth_payload := some {}, is_online := true })] }

/-- The NBIRTH payload cached by a successful publish_birth at bd_seq 1. -/
def pBirth : Payload := { seq := some 0, metrics := [bdSeqMetric 1 0] }

/-- A connected node that has published an NBIRTH while bd_seq was 1. -/
def nReb : EdgeNode :=
  { config := cfg0, is_connected := true, primary_host_online := true,
    bd_seq_num := 1, last_birth_payload := some pBirth }

/-- The NBIRTH topic of the fixture node, as the host application sees
it. -/
def tN : Topic :=
  { group_id := ("G").data, message_type := .NBIRTH,
    edge_node_id := ("N").data, device_id := [] }

/-- An NBIRTH payload with seq 1 (invalid) that carries a bdSeq metric. -/
def pBadSeq : Payload := { seq := some 1, metrics := [bdSeqMetric 5 0] }

/-- A well-formed NBIRTH payload: seq 0, bdSeq 5, one aliased metric. -/
def pGood : Payload :=
  { seq := some 0,
    metrics := [bdSeqMetric 5 0,
                { name := some (("T").data), aliasNum := some 1 }] }

/-! ## Theorems -/

theorem split_append (d : Char) (a rest : Str) (h : d ∉ a) :
    split_string_view d (a ++ d :: rest) = a :: split_string_view d rest := by
  induction a with
  | nil => simp [split_string_view]
  | cons c as ih =>
    have hc : ¬ c = d := fun hcd => h (hcd ▸ List.mem_cons_self c as)
    have ha : d ∉ as := fun hm => h (List.mem_cons_of_mem c hm)
    show split_string_view d (c :: (as ++ d :: rest)) =
      (c :: as) :: split_string_view d rest
    conv_lhs => unfold split_string_view
    rw [if_neg hc, ih ha]

theorem split_no_delim (d : Char) (a : Str) (h : d ∉ a) (hne : a ≠ []) :
    split_string_view d a = [a] := by
  induction a with
  | nil => exact absurd rfl hne
  | cons c as ih =>
    have hc : ¬ c = d := fun hcd => h (hcd ▸ List.mem_cons_self c as)
    have ha : d ∉ as := fun hm => h (List.mem_cons_of_mem c hm)
    by_cases has : as = []
    · subst has; simp [split_string_view, if_neg hc]
    · show split_string_view d (c :: as) = [c :: as]
      conv_lhs => unfold split_string_view
      rw [if_neg hc, ih ha has]

theorem parse_message_type_roundtrip (mt : MessageType) :
    parse_message_type (message_type_to_string mt) = .ok mt := by
  cases mt <;> rfl

theorem message_type_string_no_slash (mt : MessageType) :
    slash ∉ message_type_to_string mt := by
  cases mt <;> decide

theorem to_string_state_eq (g nd dv : Str) :
    Topic.to_string ⟨g, .STATE, nd, dv⟩ =
      NAMESPACE ++ slash :: (("STATE").data ++ slash :: nd) := by
  unfold Topic.to_string
  simp

theorem to_string_node_eq (g nd : Str) (mt : MessageType) (hst : mt ≠ .STATE) :
    Topic.to_string ⟨g, mt, nd, []⟩ =
      NAMESPACE ++ slash ::
        (g ++ slash :: (message_type_to_string mt ++ slash :: nd)) := by
  unfold Topic.to_string
  simp [hst]

theorem to_string_device_eq (g nd dv : Str) (mt : MessageType)
    (hst : mt ≠ .STATE) (hdv : dv ≠ []) :
    Topic.to_string ⟨g, mt, nd, dv⟩ =
      NAMESPACE ++ slash ::
        (g ++ slash ::
          (message_type_to_string mt ++ slash :: (nd ++ slash :: dv))) := by
  unfold Topic.to_string
  simp [hst, hdv]

/-- C3 (amended): for every Topic valid in the claim's sense whose group
id is not the literal STATE and whose edge node id (the host id, for
STATE topics) is nonempty, parsing the formatted string round-trips:
Topic::parse(t.to_string()) succeeds and yields t. -/
theorem claim3_topic_roundtrip (t : Topic) (hv : ClaimValidTopic t)
    (hg : t.group_id ≠ ("STATE").data) (hn : t.edge_node_id ≠ []) :
    Topic.parse t.to_string = .ok t := by
  obtain ⟨g, mt, nd, dv⟩ := t
  obtain ⟨h1, h2, h3, _, h5⟩ := hv
  simp only at h1 h2 h3 h5 hg hn
  by_cases hst : mt = MessageType.STATE
  · obtain ⟨hg0, hd0⟩ := h5 hst
    subst hst hg0 hd0
    rw [to_string_state_eq]
    have hsplit : split_string_view slash
        (NAMESPACE ++ slash :: (("STATE").data ++ slash :: nd)) =
        [NAMESPACE, ("STATE").data, nd] := by
      rw [split_append _ _ _ (by decide), split_append _ _ _ (by decide),
          split_no_delim _ _ h2 hn]
    unfold Topic.parse
    rw [hsplit]
    simp [List.getD]
  · by_cases hdv : dv = []
    · subst hdv
      rw [to_string_node_eq _ _ _ hst]
      have hsplit : split_string_view slash
          (NAMESPACE ++ slash ::
            (g ++ slash :: (message_type_to_string mt ++ slash :: nd))) =
          [NAMESPACE, g, message_type_to_string mt, nd] := by
        rw [split_append _ _ _ (by decide), split_append _ _ _ h1,
            split_append _ _ _ (message_type_string_no_slash mt),
            split_no_delim _ _ h2 hn]
      unfold Topic.parse
      rw [hsplit]
      simp [List.getD, hg, parse_message_type_roundtrip]
    · rw [to_string_device_eq _ _ _ _ hst hdv]
      have hsplit : split_string_view slash
          (NAMESPACE ++ slash ::
            (g ++ slash ::
              (message_type_to_string mt ++ slash :: (nd ++ slash :: dv)))) =
          [NAMESPACE, g, message_type_to_string mt, nd, dv] := by
        rw [split_append _ _ _ (by decide), split_append _ _ _ h1,
            split_append _ _ _ (message_type_string_no_slash mt),
            split_append _ _ _ h2, split_no_delim _ _ h3 hdv]
      unfold Topic.parse
      rw [hsplit]
      simp [List.getD, hg, parse_message_type_roundtrip]

/-- C3 counterexample: the topic with group id STATE, message type NDATA,
edge node id n and empty device id is valid in exactly the claim's sense,
yet parsing its formatted string does not give it back (it gives a STATE
topic whose host id is NDATA). -/
theorem claim3_counterexample :
    ClaimValidTopic
      { group_id := ("STATE").data, message_type := .NDATA,
        edge_node_id := ("n").data, device_id := [] } ∧
    (Topic.parse (Topic.to_string
      { group_id := ("STATE").data, message_type := .NDATA,
        edge_node_id := ("n").data, device_id := [] })).toOption ≠
      some { group_id := ("STATE").data, message_type := .NDATA,
             edge_node_id := ("n").data, device_id := [] } :=
  ⟨by decide, by decide⟩

/-- Witness for C3: the amended round-trip applied to a concrete valid
topic. -/
theorem claim3_witness :
    ClaimValidTopic
      { group_id := ("Energy").data, message_type := .NDATA,
        edge_node_id := ("Gateway01").data, device_id := [] } ∧
    Topic.parse (Topic.to_string
      { group_id := ("Energy").data, message_type := .NDATA,
        edge_node_id := ("Gateway01").data, device_id := [] }) =
      .ok { group_id := ("Energy").data, message_type := .NDATA,
            edge_node_id := ("Gateway01").data, device_id := [] } :=
  ⟨by decide, claim3_topic_roundtrip _ (by decide) (by decide) (by decide)⟩

theorem seriesEnd_append (prev : Nat) (a b : List Published) :
    seriesEnd prev (a ++ b) = seriesEnd (seriesEnd prev a) b := by
  induction a generalizing prev with
  | nil => rfl
  | cons m ms ih =>
    show seriesEnd prev (m :: (ms ++ b)) = seriesEnd (seriesEnd prev (m :: ms)) b
    simp only [seriesEnd, ih]

theorem seqSeriesFrom_append (prev : Nat) (a b : List Published) :
    seqSeriesFrom prev (a ++ b) =
      (seqSeriesFrom prev a && seqSeriesFrom (seriesEnd prev a) b) := by
  induction a generalizing prev with
  | nil => simp [seqSeriesFrom, seriesEnd]
  | cons m ms ih =>
    by_cases hm : m.topic.message_type = .NBIRTH
    · simp [seqSeriesFrom, seriesEnd, hm, ih, Bool.and_assoc]
    · simp [seqSeriesFrom, seriesEnd, hm, ih, Bool.and_assoc]

theorem runEdgeOp_series (op : EdgeOp) (n : EdgeNode) (hf : op.seqFresh = true) :
    seqSeriesFrom n.seq_num (runEdgeOp op n).wire = true ∧
    (runEdgeOp op n).state.seq_num = seriesEnd n.seq_num (runEdgeOp op n).wire := by
  cases op with
  | opConnect now =>
    simp only [runEdgeOp, EdgeNode.connect]
    split
    · simp [seqSeriesFrom, seriesEnd]
    · split <;> simp [seqSeriesFrom, seriesEnd]
  | opBirth p =>
    simp only [runEdgeOp, EdgeNode.publish_birth]
    split
    · simp [seqSeriesFrom, seriesEnd]
    · split
      · simp [seqSeriesFrom, seriesEnd]
      · split
        · simp [seqSeriesFrom, seriesEnd]
        · split <;>
            simp [seqSeriesFrom, seriesEnd, nodeTopic, Payload.set_seq]
  | opData p =>
    have hs : p.has_seq = false := by
      simpa [EdgeOp.seqFresh] using hf
    simp only [runEdgeOp, EdgeNode.publish_data, hs]
    split
    · simp [seqSeriesFrom, seriesEnd]
    · simp [seqSeriesFrom, seriesEnd, nodeTopic, Payload.set_seq]
  | opDevBirth dev p =>
    simp only [runEdgeOp, EdgeNode.publish_device_birth]
    split
    · simp [seqSeriesFrom, seriesEnd]
    · split
      · simp [seqSeriesFrom, seriesEnd]
      · split
        · simp [seqSeriesFrom, seriesEnd]
        · simp [seqSeriesFrom, seriesEnd, deviceTopic, Payload.set_seq]
  | opDevData dev p =>
    have hs : p.has_seq = false := by
      simpa [EdgeOp.seqFresh] using hf
    simp only [runEdgeOp, EdgeNode.publish_device_data, hs]
    split
    · simp [seqSeriesFrom, seriesEnd]
    · split
      · simp [seqSeriesFrom, seriesEnd]
      · split
        · simp [seqSeriesFrom, seriesEnd]
        · simp [seqSeriesFrom, seriesEnd, deviceTopic, Payload.set_seq]
  | opDevDeath dev now =>
    simp only [runEdgeOp, EdgeNode.publish_device_death]
    split
    · simp [seqSeriesFrom, seriesEnd]
    · split
      · simp [seqSeriesFrom, seriesEnd]
      · simp [seqSeriesFrom, seriesEnd, deviceTopic]
  | opDeath now =>
    simp only [runEdgeOp, EdgeNode.publish_death, EdgeNode.disconnect]
    split
    · simp [seqSeriesFrom, seriesEnd]
    · simp [seqSeriesFrom, seriesEnd, nodeTopic]
  | opRebirth now now2 =>
    cases hc : n.is_connected with
    | false => simp [runEdgeOp, EdgeNode.rebirth, hc, seqSeriesFrom, seriesEnd]
    | true =>
      cases hlb : n.last_birth_payload with
      | none =>
        simp [runEdgeOp, EdgeNode.rebirth, hc, hlb, seqSeriesFrom, seriesEnd]
      | some p =>
        cases hph : n.config.primary_host_id with
        | none =>
          simp [runEdgeOp, EdgeNode.rebirth, EdgeNode.disconnect,
                EdgeNode.connect, hc, hlb, hph, seqSeriesFrom, seriesEnd,
                nodeTopic]
        | some hostid =>
          simp [runEdgeOp, EdgeNode.rebirth, EdgeNode.disconnect,
                EdgeNode.connect, hc, hlb, hph, seqSeriesFrom, seriesEnd,
                nodeTopic]

/-- C1 (amended): over any trace of EdgeNode publish calls in which data
payloads carry no caller-preset seq, the seq values on the wire continue
the node's counter by plus-one mod 256, restarting at 0 exactly at each
NBIRTH (including the NBIRTH republished by rebirth), and the node's seq
counter always equals the last value of the series. -/
theorem claim1_seq_series (ops : List EdgeOp) (n : EdgeNode)
    (h : ops.all EdgeOp.seqFresh = true) :
    seqSeriesFrom n.seq_num (runEdgeOps ops n).2 = true ∧
    (runEdgeOps ops n).1.seq_num = seriesEnd n.seq_num (runEdgeOps ops n).2 := by
  induction ops generalizing n with
  | nil => simp [runEdgeOps, seqSeriesFrom, seriesEnd]
  | cons op ops ih =>
    rw [List.all_cons, Bool.and_eq_true] at h
    obtain ⟨hop, hops⟩ := h
    obtain ⟨w1, e1⟩ := runEdgeOp_series op n hop
    obtain ⟨w2, e2⟩ := ih (runEdgeOp op n).state hops
    constructor
    · show seqSeriesFrom n.seq_num
        ((runEdgeOp op n).wire ++ (runEdgeOps ops (runEdgeOp op n).state).2) = true
      rw [seqSeriesFrom_append, w1, ← e1, w2, Bool.and_self]
    · show (runEdgeOps ops (runEdgeOp op n).state).1.seq_num =
        seriesEnd n.seq_num
          ((runEdgeOp op n).wire ++ (runEdgeOps ops (runEdgeOp op n).state).2)
      rw [seriesEnd_append, ← e1, e2]

/-- C1 counterexample: a trace in which every operation succeeds but an
NDATA payload carries a caller-preset seq of 7; the wire series is then
0, 7, which is not the claimed 0, 1, 2, ... progression. -/
theorem claim1_counterexample :
    runAllOk opsPreset n0 = true ∧
    seqSeriesFrom n0.seq_num (runEdgeOps opsPreset n0).2 = false :=
  ⟨by decide, by decide⟩

/-- Witness for C1: connect, NBIRTH, then 256 fresh NDATA publishes; the
series holds, the 256th NDATA carries seq 0 again, and get_seq returns
0. -/
theorem claim1_witness :
    ops256.all EdgeOp.seqFresh = true ∧
    (seqSeriesFrom n0.seq_num (runEdgeOps ops256 n0).2 = true ∧
     (runEdgeOps ops256 n0).1.seq_num = seriesEnd n0.seq_num (runEdgeOps ops256 n0).2) ∧
    runAllOk ops256 n0 = true ∧
    (runEdgeOps ops256 n0).2.getLast?.map (fun m => m.payload.seq) = some (some 0) ∧
    (runEdgeOps ops256 n0).1.get_seq = 0 :=
  ⟨by decide, claim1_seq_series ops256 n0 (by decide), by decide, by decide, by decide⟩

/-- C9: the connection-lost callback clears only the connected flag; the
configuration, counters, cached payloads, device states and primary-host
flag are untouched. -/
theorem claim9_connection_lost_frame (n : EdgeNode) :
    (n.on_connection_lost).is_connected = false ∧
    (n.on_connection_lost).config = n.config ∧
    (n.on_connection_lost).seq_num = n.seq_num ∧
    (n.on_connection_lost).bd_seq_num = n.bd_seq_num ∧
    (n.on_connection_lost).death_payload_data = n.death_payload_data ∧
    (n.on_connection_lost).last_birth_payload = n.last_birth_payload ∧
    (n.on_connection_lost).device_states = n.device_states ∧
    (n.on_connection_lost).primary_host_online = n.primary_host_online := by
  simp [EdgeNode.on_connection_lost]

/-- C10: on a connected node, publish_data advances the shared seq
counter before the transport send; when the send fails the call returns
an error, nothing goes on the wire, and get_seq still returns the
incremented value. -/
theorem claim10_seq_advance_no_rollback (n : EdgeNode) (p : Payload)
    (hc : n.is_connected = true) :
    (n.publish_data false p).err.isSome = true ∧
    (n.publish_data false p).state.get_seq = (n.seq_num + 1) % 256 ∧
    (n.publish_data false p).wire = [] := by
  simp [EdgeNode.publish_data, hc, EdgeNode.get_seq]

/-- Witness for C10 at a concrete connected node. -/
theorem claim10_witness :
    nC.is_connected = true ∧
    ((nC.publish_data false {}).err.isSome = true ∧
     (nC.publish_data false {}).state.get_seq = (nC.seq_num + 1) % 256 ∧
     (nC.publish_data false {}).wire = []) :=
  ⟨by decide, claim10_seq_advance_no_rollback nC {} (by decide)⟩

/-- C8 (amended): every DDEATH published by publish_device_death is sent
at the data QoS (default 0), not at the death QoS; the source passes
config_.data_qos to the send. -/
theorem claim8_ddeath_data_qos (n : EdgeNode) (dev : Str) (now : Nat)
    (hc : n.is_connected = true)
    (hk : (alookup n.device_states dev).isSome = true) :
    (n.publish_device_death true dev now).err = none ∧
    (n.publish_device_death true dev now).wire.map Published.qos =
      [n.config.data_qos] := by
  cases hlk : alookup n.device_states dev with
  | none => rw [hlk] at hk; simp at hk
  | some ds => simp [EdgeNode.publish_device_death, hc, hlk]

/-- C8 counterexample: on a node with the default QoS configuration
(data 0, death 1) and a known device, the DDEATH goes out at QoS 0 even
though death_qos is 1, so it is not sent at the death QoS. -/
theorem claim8_counterexample :
    (nDev.publish_device_death true devD 0).err = none ∧
    (nDev.publish_device_death true devD 0).wire.map Published.qos = [0] ∧
    nDev.config.death_qos = 1 ∧ nDev.config.data_qos = 0 :=
  ⟨by decide, by decide, by decide, by decide⟩

/-- Witness for C8: the amended statement applied to the fixture node. -/
theorem claim8_witness :
    nDev.is_connected = true ∧
    (alookup nDev.device_states devD).isSome = true ∧
    ((nDev.publish_device_death true devD 0).err = none ∧
     (nDev.publish_device_death true devD 0).wire.map Published.qos =
       [nDev.config.data_qos]) :=
  ⟨by decide, by decide, claim8_ddeath_data_qos nDev devD 0 (by decide) (by decide)⟩

/-- C2 (amended): a successful publish_birth publishes an NBIRTH whose
payload has seq 0; when the caller's payload lacks a bdSeq metric the
core appends one of datatype UInt64 whose value is the node's current
bd_seq (stamped with the payload's timestamp when there is one); when the
caller supplied a bdSeq metric the metric list is left exactly as given
(in particular its value is not checked against bd_seq).  The built
payload is cached and the seq counter reset to 0. -/
theorem claim2_birth_payload (n : EdgeNode) (p : Payload)
    (hc : n.is_connected = true) (hh : n.primary_host_online = true) :
    n.publish_birth true p =
      ⟨none,
       { n with
           last_birth_payload := some
             { timestamp := p.timestamp, seq := some 0,
               metrics :=
                 if p.hasBdSeqMetric then p.metrics
                 else p.metrics ++
                   [{ name := some (("bdSeq").data),
                      datatype := some DataTypeUInt64,
                      longValue := n.bd_seq_num, timestamp := p.timestamp }] },
           seq_num := 0 },
       [⟨nodeTopic n.config .NBIRTH,
         { timestamp := p.timestamp, seq := some 0,
           metrics :=
             if p.hasBdSeqMetric then p.metrics
             else p.metrics ++
               [{ name := some (("bdSeq").data),
                  datatype := some DataTypeUInt64,
                  longValue := n.bd_seq_num, timestamp := p.timestamp }] },
         n.config.data_qos, false⟩]⟩ := by
  by_cases hbd : ∃ x ∈ p.metrics, x.nameStr = ("bdSeq").data
  · simp [EdgeNode.publish_birth, hc, hh, Payload.set_seq,
          Payload.hasBdSeqMetric, hbd]
  · simp [EdgeNode.publish_birth, hc, hh, Payload.set_seq,
          Payload.hasBdSeqMetric, hbd]

/-- C2 counterexample: the node's bd_seq is 1 but the caller supplied a
bdSeq metric with value 99; publish_birth succeeds and the published
NBIRTH does not carry a bdSeq metric equal to the node's bd_seq. -/
theorem claim2_counterexample :
    (nBd1.publish_birth true pOddBd).err = none ∧
    (nBd1.publish_birth true pOddBd).wire.map
      (fun m => carriesBdSeqOf m.payload nBd1.bd_seq_num) = [false] :=
  ⟨by decide, by decide⟩

/-- Witness for C2: the amended statement applied to a payload without a
bdSeq metric. -/
theorem claim2_witness :
    nBd1.is_connected = true ∧ nBd1.primary_host_online = true ∧
    nBd1.publish_birth true {} =
      ⟨none,
       { nBd1 with
           last_birth_payload := some
             { timestamp := (({} : Payload)).timestamp, seq := some 0,
               metrics :=
                 if (({} : Payload)).hasBdSeqMetric then (({} : Payload)).metrics
                 else (({} : Payload)).metrics ++
                   [{ name := some (("bdSeq").data),
                      datatype := some DataTypeUInt64,
                      longValue := nBd1.bd_seq_num,
                      timestamp := (({} : Payload)).timestamp }] },
           seq_num := 0 },
       [⟨nodeTopic nBd1.config .NBIRTH,
         { timestamp := (({} : Payload)).timestamp, seq := some 0,
           metrics :=
             if (({} : Payload)).hasBdSeqMetric then (({} : Payload)).metrics
             else (({} : Payload)).metrics ++
               [{ name := some (("bdSeq").data),
                  datatype := some DataTypeUInt64,
                  longValue := nBd1.bd_seq_num,
                  timestamp := (({} : Payload)).timestamp }] },
         nBd1.config.data_qos, false⟩]⟩ :=
  ⟨by decide, by decide, claim2_birth_payload nBd1 {} (by decide) (by decide)⟩

/-- C5: on a connected node configured with a primary host whose last
observed STATE is offline (the initial condition included), publish_birth
and publish_device_birth return the primary-host error and publish
nothing, whatever the transport would do; observing a STATE payload
containing the online-true fragment flips the flag, after which
publish_birth succeeds. -/
theorem claim5_primary_host_gate (n : EdgeNode) (p q : Payload) (dev : Str)
    (pubOk subOk pubOk2 : Bool) (ps : Str)
    (hph : n.config.primary_host_id.isSome = true)
    (hoff : n.primary_host_online = false)
    (hc : n.is_connected = true)
    (hps : strContains (("\"online\":true").data) ps = true) :
    ((n.publish_birth pubOk p).err = some (("Primary host is not online").data) ∧
     (n.publish_birth pubOk p).wire = []) ∧
    ((n.publish_device_birth subOk pubOk2 dev q).err =
       some (("Primary host is not online").data) ∧
     (n.publish_device_birth subOk pubOk2 dev q).wire = []) ∧
    (n.on_state_message ps).primary_host_online = true ∧
    ((n.on_state_message ps).publish_birth true p).err = none := by
  refine ⟨⟨?_, ?_⟩, ⟨?_, ?_⟩, ?_, ?_⟩ <;>
    simp [EdgeNode.publish_birth, EdgeNode.publish_device_birth,
          EdgeNode.on_state_message, hoff, hc, hps]

/-- Witness for C5 at a concrete node awaiting its primary host. -/
theorem claim5_witness :
    nPH.config.primary_host_id.isSome = true ∧
    nPH.primary_host_online = false ∧
    nPH.is_connected = true ∧
    strContains (("\"online\":true").data) stateOnlineJson = true ∧
    (((nPH.publish_birth true {}).err =
        some (("Primary host is not online").data) ∧
      (nPH.publish_birth true {}).wire = []) ∧
     ((nPH.publish_device_birth true true devD {}).err =
        some (("Primary host is not online").data) ∧
      (nPH.publish_device_birth true true devD {}).wire = []) ∧
     (nPH.on_state_message stateOnlineJson).primary_host_online = true ∧
     ((nPH.on_state_message stateOnlineJson).publish_birth true {}).err = none) :=
  ⟨by decide, by decide, by decide, by decide,
   claim5_primary_host_gate nPH {} {} devD true true true stateOnlineJson
     (by decide) (by decide) (by decide) (by decide)⟩

theorem device_data_fails (n : EdgeNode) (dev : Str) (p : Payload) (pubOk : Bool)
    (h : (alookup n.device_states dev).map DeviceState.is_online ≠ some true) :
    (n.publish_device_data pubOk dev p).err.isSome = true ∧
    (n.publish_device_data pubOk dev p).wire = [] := by
  cases hc : n.is_connected with
  | false => simp [EdgeNode.publish_device_data, hc]
  | true =>
    cases hlk : alookup n.device_states dev with
    | none => simp [EdgeNode.publish_device_data, hc, hlk]
    | some ds =>
      cases hon : ds.is_online with
      | false => simp [EdgeNode.publish_device_data, hc, hlk, hon]
      | true => rw [hlk] at h; simp [Option.map, hon] at h

theorem alookup_setOffline (m : List (Str × DeviceState)) (dev : Str) :
    alookup (setDeviceOffline dev m) dev =
      (alookup m dev).map (fun d => { d with is_online := false }) := by
  induction m with
  | nil => rfl
  | cons kv rest ih =>
    obtain ⟨k, v⟩ := kv
    by_cases hk : k = dev
    · simp [setDeviceOffline, alookup, hk]
    · simp [setDeviceOffline, alookup, hk, ih]

/-- C6: publish_device_data fails and publishes nothing unless the device
is known and marked online (the mark a successful DBIRTH sets); in
particular after a successful publish_device_death for the device, a
subsequent publish_device_data fails and publishes nothing. -/
theorem claim6_device_data_gate (n n2 : EdgeNode) (dev : Str) (p p2 : Payload)
    (pubOk pubOk2 : Bool) (now : Nat) :
    ((alookup n.device_states dev).map DeviceState.is_online ≠ some true →
      (n.publish_device_data pubOk dev p).err.isSome = true ∧
      (n.publish_device_data pubOk dev p).wire = []) ∧
    ((n2.publish_device_death true dev now).err = none →
      (((n2.publish_device_death true dev now).state.publish_device_data
          pubOk2 dev p2).err.isSome = true ∧
       ((n2.publish_device_death true dev now).state.publish_device_data
          pubOk2 dev p2).wire = [])) := by
  constructor
  · exact device_data_fails n dev p pubOk
  · intro hd
    cases hc : n2.is_connected with
    | false => rw [EdgeNode.publish_device_death] at hd; simp [hc] at hd
    | true =>
      cases hlk : alookup n2.device_states dev with
      | none => rw [EdgeNode.publish_device_death] at hd; simp [hc, hlk] at hd
      | some ds =>
        apply device_data_fails
        have hstate : (n2.publish_device_death true dev now).state.device_states =
            setDeviceOffline dev n2.device_states := by
          simp [EdgeNode.publish_device_death, hc, hlk]
        rw [hstate, alookup_setOffline, hlk]
        simp

/-- Witness for C6: the unknown-device half applied at a fresh node, and
the death-then-data half applied at a node whose device D was online. -/
theorem claim6_witness :
    ((n0.publish_device_data true devD {}).err.isSome = true ∧
     (n0.publish_device_data true devD {}).wire = []) ∧
    (((nDev.publish_device_death true devD 3).state.publish_device_data
        true devD {}).err.isSome = true ∧
     ((nDev.publish_device_death true devD 3).state.publish_device_data
        true devD {}).wire = []) := by
  obtain ⟨h1, h2⟩ := claim6_device_data_gate n0 nDev devD {} {} true true 3
  exact ⟨h1 (by decide), h2 (by decide)⟩

theorem firstBdSeq_update (v : Nat) (ms : List Metric)
    (h : ms.any (fun m => m.nameStr = ("bdSeq").data) = true) :
    firstBdSeq (updateFirstBdSeq v ms) = some v := by
  induction ms with
  | nil => simp at h
  | cons m ms ih =>
    by_cases hm : m.nameStr = ("bdSeq").data
    · rw [updateFirstBdSeq, if_pos hm, firstBdSeq,
          if_pos (show ({ m with longValue := v } : Metric).nameStr =
            ("bdSeq").data from hm)]
    · have h2 : ms.any (fun m => m.nameStr = ("bdSeq").data) = true := by
        simpa [hm] using h
      rw [updateFirstBdSeq, if_neg hm, firstBdSeq, if_neg hm, ih h2]

/-- C7: from a connected node that has published an NBIRTH while bd_seq
was 1 (so the cached NBIRTH holds a bdSeq metric), a rebirth whose
transport calls succeed republishes an NBIRTH carrying seq 0 and a bdSeq
metric equal to 2, and afterwards get_bd_seq() is 2 and get_seq() is 0:
rebirth's rewrite and connect's own increment net exactly one
increment. -/
theorem claim7_rebirth (n : EdgeNode) (p : Payload) (now now2 : Nat)
    (hc : n.is_connected = true) (hbd : n.bd_seq_num = 1)
    (hlb : n.last_birth_payload = some p)
    (hhas : p.hasBdSeqMetric = true) :
    (n.rebirth true true true now now2).err = none ∧
    (n.rebirth true true true now now2).wire.map
      (fun m => (m.topic.message_type, m.payload.seq, firstBdSeq m.payload.metrics)) =
      [(.NBIRTH, some 0, some 2)] ∧
    (n.rebirth true true true now now2).state.get_bd_seq = 2 ∧
    (n.rebirth true true true now now2).state.get_seq = 0 := by
  rw [Payload.hasBdSeqMetric] at hhas
  have hmod : (1 + 1) % u64 = 2 := by decide
  cases hph : n.config.primary_host_id with
  | none =>
    simp [EdgeNode.rebirth, EdgeNode.disconnect, EdgeNode.connect, hc, hlb,
          hph, hbd, hmod, nodeTopic, EdgeNode.get_bd_seq, EdgeNode.get_seq,
          firstBdSeq_update 2 p.metrics hhas]
  | some hostid =>
    simp [EdgeNode.rebirth, EdgeNode.disconnect, EdgeNode.connect, hc, hlb,
          hph, hbd, hmod, nodeTopic, EdgeNode.get_bd_seq, EdgeNode.get_seq,
          firstBdSeq_update 2 p.metrics hhas]

/-- Witness for C7 at a concrete node whose cached NBIRTH carries
bdSeq 1. -/
theorem claim7_witness :
    nReb.is_connected = true ∧ nReb.bd_seq_num = 1 ∧
    nReb.last_birth_payload = some pBirth ∧ pBirth.hasBdSeqMetric = true ∧
    ((nReb.rebirth true true true 5 6).err = none ∧
     (nReb.rebirth true true true 5 6).wire.map
       (fun m =>
         (m.topic.message_type, m.payload.seq, firstBdSeq m.payload.metrics)) =
       [(.NBIRTH, some 0, some 2)] ∧
     (nReb.rebirth true true true 5 6).state.get_bd_seq = 2 ∧
     (nReb.rebirth true true true 5 6).state.get_seq = 0) :=
  ⟨by decide, by decide, by decide, by decide,
   claim7_rebirth nReb pBirth 5 6 (by decide) (by decide) (by decide) (by decide)⟩

/-- C4 (amended): with sequence validation enabled, an NBIRTH whose seq is
present and nonzero is warned about and rejected without updating the
node's state (beyond the default-constructed map entry); an NBIRTH with
acceptable seq but no bdSeq metric is likewise warned about and rejected
without an update; otherwise the validator records the bdSeq, marks the
node online with last_seq 0, and rebuilds the alias map from every metric
carrying both name and alias. -/
theorem claim4_nbirth_validation (topic : Topic) (payload : Payload)
    (states : List ((Str × Str) × NodeState))
    (hmt : topic.message_type = .NBIRTH) :
    ((payload.has_seq = true ∧ payload.seq.getD 0 ≠ 0) →
      validate_message true topic payload states =
        ⟨false,
         ainsert states (topic.group_id, topic.edge_node_id)
           ((alookup states (topic.group_id, topic.edge_node_id)).getD {}),
         [.warnNbirthSeq (payload.seq.getD 0)]⟩) ∧
    ((payload.has_seq = false ∨ payload.seq.getD 0 = 0) →
      firstBdSeq payload.metrics = none →
      validate_message true topic payload states =
        ⟨false,
         ainsert states (topic.group_id, topic.edge_node_id)
           ((alookup states (topic.group_id, topic.edge_node_id)).getD {}),
         [.warnNbirthNoBdSeq]⟩) ∧
    (∀ bd, (payload.has_seq = false ∨ payload.seq.getD 0 = 0) →
      firstBdSeq payload.metrics = some bd →
      validate_message true topic payload states =
        ⟨true,
         ainsert states (topic.group_id, topic.edge_node_id)
           ({ (alookup states (topic.group_id, topic.edge_node_id)).getD {} with
              bd_seq := bd, last_seq := 0, is_online := true,
              birth_received := true,
              birth_timestamp := payload.timestamp.getD 0,
              alias_map := buildAliasMap payload.metrics }),
         []⟩) := by
  obtain ⟨g, mt, nd, dv⟩ := topic
  simp only at hmt
  subst hmt
  refine ⟨?_, ?_, ?_⟩
  · rintro ⟨hs, hnz⟩
    simp [validate_message, hs, hnz]
  · rintro (hs | hz) hfb
    · simp [validate_message, hs, hfb]
    · simp [validate_message, hz, hfb]
  · rintro bd (hs | hz) hfb
    · simp [validate_message, hs, hfb]
    · simp [validate_message, hz, hfb]

/-- C4 counterexample: an NBIRTH with seq 1 (bdSeq present) is warned
about, but the validator returns false and leaves the node's state
unchanged: the node is not marked online and last_seq stays 255, against
the claim's warn-but-still-update reading. -/
theorem claim4_counterexample :
    (validate_message true tN pBadSeq []).ok = false ∧
    (validate_message true tN pBadSeq []).states.map
      (fun kv => (kv.2.is_online, kv.2.last_seq, kv.2.birth_received)) =
      [(false, 255, false)] ∧
    (validate_message true tN pBadSeq []).logs = [.warnNbirthSeq 1] :=
  ⟨by decide, by decide, by decide⟩

/-- Witness for C4: the amended statement's accepting branch at a
well-formed NBIRTH. -/
theorem claim4_witness :
    tN.message_type = .NBIRTH ∧
    (pGood.has_seq = false ∨ pGood.seq.getD 0 = 0) ∧
    firstBdSeq pGood.metrics = some 5 ∧
    validate_message true tN pGood [] =
      ⟨true,
       ainsert [] (tN.group_id, tN.edge_node_id)
         ({ (alookup ([] : List ((Str × Str) × NodeState))
              (tN.group_id, tN.edge_node_id)).getD {} with
            bd_seq := 5, last_seq := 0, is_online := true,
            birth_received := true,
            birth_timestamp := pGood.timestamp.getD 0,
            alias_map := buildAliasMap pGood.metrics }),
       []⟩ :=
  ⟨rfl, Or.inr (by decide), by decide,
   (claim4_nbirth_validation tN pGood [] rfl).2.2 5 (Or.inr (by decide))
     (by decide)⟩
